import Mathlib

/-!
# Verification of the costcopm-alerts stock-check pipeline

A shallow embedding of the core logic of `costcopm_alert.py`:
the JSON summary normalizer (`_detect_metal`, `_is_in_stock`,
`parse_api_json`), the DOM-scrape tally (`scrape_dom_summary`),
the decision/compose step of `check_stock`, and the X publish gate
(`_instock_set_from_summary`, `_can_post_to_x_now`, `_record_x_post`,
`post_everywhere`).

JSON values are modelled by the inductive `JValue`; Python exceptions
are modelled by `Except Unit`.  JSON numbers are modelled by `Int`
(the payloads involved carry only integral counts, and only truthiness
and `int(...)` conversion of numbers are ever used).  Python `dict`s
are modelled as association lists with unique keys (lookup returns the
first binding).
-/

set_option linter.unusedVariables false

namespace CostcoPM

/-- A JSON value, as produced by Python `json.load`. -/
inductive JValue where
  | null : JValue
  | bool : Bool → JValue
  | num : Int → JValue
  | str : String → JValue
  | arr : List JValue → JValue
  | obj : List (String × JValue) → JValue

/-- Python truthiness (`bool(v)`) of a JSON value:
`None`, `False`, `0`, `""`, `[]`, `{}` are falsy, everything else truthy. -/
def JValue.toBool : JValue → Bool
  | .null => false
  | .bool b => b
  | .num n => n != 0
  | .str s => s != ""
  | .arr xs => !xs.isEmpty
  | .obj kvs => !kvs.isEmpty

/-- First binding for a key in a dict, mirroring Python `dict` lookup
(keys of a Python dict are unique, so first = only binding). -/
def dictGet : List (String × JValue) → String → Option JValue
  | [], _ => none
  | (k, v) :: rest, key => if k = key then some v else dictGet rest key

/-- Python `doc.get(key)`: `None` when the key is absent. -/
def pyGetJ (kvs : List (String × JValue)) (key : String) : JValue :=
  (dictGet kvs key).getD .null

/-- Python `a or b`: `a` when truthy, else `b`. -/
def pyOrJ (a b : JValue) : JValue :=
  if a.toBool then a else b

/-- Python `v.get(key, default)`: raises `AttributeError` unless `v` is a dict. -/
def pyGetD (v : JValue) (key : String) (dflt : JValue) : Except Unit JValue :=
  match v with
  | .obj kvs => .ok ((dictGet kvs key).getD dflt)
  | _ => .error ()

/-- Character-list prefix test. -/
def isPrefixCh : List Char → List Char → Bool
  | [], _ => true
  | _ :: _, [] => false
  | a :: as, b :: bs => a = b && isPrefixCh as bs

/-- Character-list contiguous-sublist test. -/
def hasInfixCh (needle : List Char) : List Char → Bool
  | [] => isPrefixCh needle []
  | b :: bs => isPrefixCh needle (b :: bs) || hasInfixCh needle bs

/-- Python `needle in hay` for strings (contiguous substring). -/
def strContains (hay needle : String) : Bool :=
  hasInfixCh needle.toList hay.toList

/-- ASCII lowering of one character (the strings this program lowers are
ASCII; Python `str.lower` agrees with this on them). -/
def pyCharLower (c : Char) : Char :=
  if 65 ≤ c.toNat ∧ c.toNat ≤ 90 then Char.ofNat (c.toNat + 32) else c

/-- Python `s.lower()`. -/
def pyLower (s : String) : String :=
  String.mk (s.toList.map pyCharLower)

/-- ASCII whitespace (what Python `str.strip()` removes on the strings this
program strips). -/
def isSpaceCh (c : Char) : Bool :=
  c = ' ' || c = '\t' || c = '\n' || c = '\r'

/-- Python `s.strip()`. -/
def pyTrim (s : String) : String :=
  String.mk (((s.toList.dropWhile isSpaceCh).reverse.dropWhile isSpaceCh).reverse)

/-- Python `s[:n]` (slicing by characters). -/
def pyTake (s : String) (n : Nat) : String :=
  String.mk (s.toList.take n)

/-- Python `sep.join(parts)` once `parts` is a list of strings. -/
def joinWith (sep : String) : List String → String
  | [] => ""
  | [x] => x
  | x :: xs => x ++ sep ++ joinWith sep xs

/-- Every element is a string (argument check of Python `str.join`). -/
def allStrings : List JValue → Except Unit (List String)
  | [] => .ok []
  | .str s :: rest => do
      let r ← allStrings rest
      .ok (s :: r)
  | _ :: _ => .error ()

/-- Python `" ".join(v)`.  Joining a string joins its characters; joining a
list requires every element to be a string; joining a dict joins its keys
(always strings in JSON); any other value raises `TypeError`. -/
def pyJoinSpace : JValue → Except Unit String
  | .str s => .ok (joinWith " " (s.toList.map String.singleton))
  | .arr xs => do
      let ss ← allStrings xs
      .ok (joinWith " " ss)
  | .obj kvs => .ok (joinWith " " (kvs.map (fun p => p.1)))
  | _ => .error ()

/-- Python `int(v)`: bools and ints convert; strings parse (or raise
`ValueError`); anything else raises `TypeError`. -/
def pyInt : JValue → Except Unit Int
  | .bool b => .ok (if b then 1 else 0)
  | .num n => .ok n
  | .str s =>
      match s.trim.toInt? with
      | some n => .ok n
      | none => .error ()
  | _ => .error ()

/-- Python `len(v)`: strings, lists and dicts have a length; other values
raise `TypeError`. -/
def pyLen : JValue → Except Unit Nat
  | .str s => .ok s.toList.length
  | .arr xs => .ok xs.length
  | .obj kvs => .ok kvs.length
  | _ => .error ()

/-- Python iteration `for d in v`: a string yields its characters, a list its
elements, a dict its keys; other values raise `TypeError`. -/
def pyIter : JValue → Except Unit (List JValue)
  | .str s => .ok (s.toList.map (fun c => .str (String.singleton c)))
  | .arr xs => .ok xs
  | .obj kvs => .ok (kvs.map (fun p => .str p.1))
  | _ => .error ()

/-! ## `_detect_metal` and `_is_in_stock` (costcopm_alert.py lines 137-157) -/

/-- `_detect_metal(doc)`:
`forms = " ".join(doc.get("Precious_Metal_Form_attr") or []).lower()`,
`purity = " ".join(doc.get("Purity_attr") or []).lower()`,
`name = (doc.get("item_product_name") or doc.get("name") or "").lower()`,
`hay = " ".join([forms, purity, name])`, then substring tests for
"gold" / "silver", defaulting to "other".  A non-dict argument, a truthy
non-joinable attribute value, or a truthy non-string name raises. -/
def detect_metal (doc : JValue) : Except Unit String :=
  match doc with
  | .obj kvs => do
      let forms0 ← pyJoinSpace (pyOrJ (pyGetJ kvs "Precious_Metal_Form_attr") (.arr []))
      let purity0 ← pyJoinSpace (pyOrJ (pyGetJ kvs "Purity_attr") (.arr []))
      let nameV := pyOrJ (pyGetJ kvs "item_product_name") (pyOrJ (pyGetJ kvs "name") (.str ""))
      let name ←
        match nameV with
        | .str s => Except.ok (pyLower s)
        | _ => Except.error ()
      let hay := pyLower forms0 ++ " " ++ pyLower purity0 ++ " " ++ name
      if strContains hay "gold" then .ok "gold"
      else if strContains hay "silver" then .ok "silver"
      else .ok "other"
  | _ => .error ()

/-- The status-string chain of `_is_in_stock` / `_instock_set_from_summary`:
`doc.get("item_location_stockStatus") or doc.get("item_location_availability")
or doc.get("deliveryStatus") or ""`. -/
def statusChain (kvs : List (String × JValue)) : JValue :=
  pyOrJ (pyGetJ kvs "item_location_stockStatus")
    (pyOrJ (pyGetJ kvs "item_location_availability")
      (pyOrJ (pyGetJ kvs "deliveryStatus") (.str "")))

/-- `_is_in_stock(doc)`: when the key `isItemInStock` is present, return
`bool(doc["isItemInStock"])` (which never raises on a JSON value);
otherwise strip/lower the status-string chain (raising on a truthy
non-string) and test membership in {"in stock", "instock", "available"}. -/
def is_in_stock (doc : JValue) : Except Unit Bool :=
  match doc with
  | .obj kvs =>
      match dictGet kvs "isItemInStock" with
      | some v => .ok v.toBool
      | none =>
          match statusChain kvs with
          | .str s =>
              let st := pyLower (pyTrim s)
              .ok (st = "in stock" || st = "instock" || st = "available")
          | _ => .error ()
  | _ => .error ()

/-! ## Stock summaries and `parse_api_json` (lines 160-185) -/

/-- One `{in_stock, out_of_stock}` cell of the summary. -/
structure StockPair where
  in_stock : Nat
  out_of_stock : Nat
deriving DecidableEq

/-- The canonical stock summary
`{"numFound": n, "counts": {...}, "stock": {...}}`. -/
structure Summary where
  numFound : Int
  gold : Nat
  silver : Nat
  other : Nat
  stock_gold : StockPair
  stock_silver : StockPair
  stock_other : StockPair
deriving DecidableEq

/-- The zero-initialized counts/stock dictionaries of `parse_api_json`. -/
def emptyCounts : Summary := ⟨0, 0, 0, 0, ⟨0, 0⟩, ⟨0, 0⟩, ⟨0, 0⟩⟩

/-- Bump one stock cell. -/
def bumpPair (p : StockPair) (inS : Bool) : StockPair :=
  if inS then ⟨p.in_stock + 1, p.out_of_stock⟩ else ⟨p.in_stock, p.out_of_stock + 1⟩

/-- One loop iteration of `parse_api_json`: `counts[m] += 1` and the matching
stock-cell bump.  `_detect_metal` only ever returns "gold", "silver" or
"other"; the final branch is the "other" bucket. -/
def bumpDoc (s : Summary) (m : String) (inS : Bool) : Summary :=
  match s with
  | ⟨nf, g, si, o, sg, ss, so⟩ =>
      if m = "gold" then ⟨nf, g + 1, si, o, bumpPair sg inS, ss, so⟩
      else if m = "silver" then ⟨nf, g, si + 1, o, sg, bumpPair ss inS, so⟩
      else ⟨nf, g, si, o + 1, sg, ss, bumpPair so inS⟩

/-- The `for d in docs` loop of `parse_api_json`, accumulating left to right;
an exception in `_detect_metal` or `_is_in_stock` propagates. -/
def tallyDocs (acc : Summary) : List JValue → Except Unit Summary
  | [] => .ok acc
  | d :: ds => do
      let m ← detect_metal d
      let inS ← is_in_stock d
      tallyDocs (bumpDoc acc m inS) ds

/-- The docs extraction of `parse_api_json`:
`resp = data.get("response", {})`, `docs = resp.get("docs", [])`, then the
list the `for` loop iterates over. -/
def docsListOf (data : JValue) : Except Unit (List JValue) := do
  let resp ← pyGetD data "response" (.obj [])
  let docsV ← pyGetD resp "docs" (.arr [])
  pyIter docsV

/-- `parse_api_json`, from the point where the JSON file has been decoded
into `data` (the file-existence check and `json.load` are I/O around this
pure core; the caller treats any exception as "no summary"). -/
def parse_api_json (data : JValue) : Except Unit Summary := do
  let resp ← pyGetD data "response" (.obj [])
  let docsV ← pyGetD resp "docs" (.arr [])
  let nfV ← pyGetD resp "numFound" .null
  let nf ←
    if nfV.toBool then pyInt nfV
    else do
      let n ← pyLen docsV
      pure (Int.ofNat n)
  let ds ← pyIter docsV
  let t ← tallyDocs emptyCounts ds
  pure ⟨nf, t.gold, t.silver, t.other, t.stock_gold, t.stock_silver, t.stock_other⟩

/-- Helper: the payload `{"response": {"docs": ds}}` (no `numFound`). -/
def mkPayload (ds : List JValue) : JValue :=
  .obj [("response", .obj [("docs", .arr ds)])]

/-! ## DOM scrape tally (`scrape_dom_summary`, lines 249-322) -/

/-- `detect_metal_from_text(t)` inside `scrape_dom_summary`. -/
def detect_metal_from_text (t : String) : String :=
  let s := pyLower t
  if strContains s "gold" then "gold"
  else if strContains s "silver" then "silver"
  else "other"

/-- The tile in-stock heuristic of line 310:
`("in stock" in tlow) or ("$" in tlow) or ("add to cart" in tlow) or
("price" in tlow)`, applied to the lowered stripped tile text. -/
def tile_in_stock (tlow : String) : Bool :=
  strContains tlow "in stock" || strContains tlow "$" ||
    strContains tlow "add to cart" || strContains tlow "price"

/-- The per-tile loop of `scrape_dom_summary` over the extracted tile texts:
strip, skip empties, classify metal, tally in/out of stock, count `seen`. -/
def scrape_tally (acc : Summary) (seen : Nat) : List String → Summary × Nat
  | [] => (acc, seen)
  | raw :: rest =>
      let txt := pyTrim raw
      if txt = "" then scrape_tally acc seen rest
      else
        let m := detect_metal_from_text txt
        let tlow := pyLower txt
        let inS := tile_in_stock tlow
        scrape_tally (bumpDoc acc m inS) (seen + 1) rest

/-- `scrape_dom_summary`, from the point where the tile texts have been
extracted (`loc.inner_text(...) or ""` per tile; a missing tile list gives
`None` earlier, and `seen == 0` gives `None` at the end).
`numFound` is the number of non-empty tiles seen. -/
def scrape_dom_summary (texts : List String) : Option Summary :=
  if texts.isEmpty then none
  else
    let r := scrape_tally emptyCounts 0 texts
    if r.2 = 0 then none
    else some ⟨Int.ofNat r.2, r.1.gold, r.1.silver, r.1.other,
               r.1.stock_gold, r.1.stock_silver, r.1.stock_other⟩

/-! ## Message composition (`build_text_from_summary`, lines 532-554) -/

/-- The alert headline of line 545. -/
def alertHeadline : String := "🚨 Costco Precious Metals Listed!"

/-- The routine status-update headline of line 545. -/
def statusHeadline : String := "Costco Precious Metals — status update"

/-- `status_line` of `build_text_from_summary`: the alert phrasing iff the
gold or silver in-stock tally is positive (the "other" bucket is not
consulted). -/
def status_line_of (s : Summary) : String :=
  if s.stock_gold.in_stock > 0 || s.stock_silver.in_stock > 0
  then alertHeadline else statusHeadline

/-- `build_text_from_summary`, with the wall-clock timestamp line passed in
as `ts` (the Python code renders `datetime.now()` in three time zones).
`total = summary.get("numFound", ...)`: the key is always present in a
summary built by either normalizer, so the default is never used. -/
def build_text_from_summary (ts : String) (s : Summary) : String :=
  status_line_of s ++ "\n\n" ++
    "🕓 " ++ ts ++ "\n" ++
    "Items found: " ++ toString s.numFound ++
    " | Gold: " ++ toString s.gold ++ " | Silver: " ++ toString s.silver ++ "\n" ++
    "https://www.costco.com/precious-metals.html\n\n" ++
    "#Costco #Gold #Silver #CostcoPM"

/-! ## Decision core of `check_stock` (lines 926-1038) -/

/-- The bot-block / consent-wall markers of line 933. -/
def BLOCK_MARKERS : List String :=
  ["access denied", "request was blocked", "reference #", "problem loading page"]

/-- `OOS_PATTERNS` (lines 85-89). -/
def OOS_PATTERNS : List String :=
  ["we were not able to find a match", "no results found", "did not match any products"]

/-- `IN_STOCK_TERMS` (line 90). -/
def IN_STOCK_TERMS : List String :=
  ["gold bar", "gold bars", "silver bar", "silver bars", "precious metals"]

/-- `low = page.title().lower() + " " + body_preview.lower()` where
`body_preview = page.inner_text("body")[:2000]` (lines 928-931): the title
in full, but only the first 2000 characters of the body. -/
def lowOf (title body : String) : String :=
  pyLower title ++ " " ++ pyLower (pyTake body 2000)

/-- The posting configuration flags read from the environment. -/
structure PostFlags where
  post_status_updates : Bool
  always_post_when_inconclusive : Bool
deriving DecidableEq

/-- The page-derived inputs to the decision step of `check_stock`:
page title and body text, the parsed API summary (if the JSON was captured
and parsed), the DOM-scrape summary (consulted only when there is no API
summary), and the maximum tile count over the three selectors. -/
structure PageSignals where
  title : String
  body : String
  summary : Option Summary
  domSummary : Option Summary
  tileCount : Nat

/-- The terminal verdict of one run. -/
inductive Decision where
  | inStock : Decision
  | outOfStock : Decision
  | inconclusive : Decision
deriving DecidableEq

/-- Outcome of the decision step: the verdict, whether the tile-count /
text-pattern heuristic checks were reached (they are skipped only by the
blocked-page short circuit), and the text handed to the primary publish
(`none` when no publish is attempted). -/
structure RunOutcome where
  decision : Decision
  heuristicEvaluated : Bool
  primaryText : Option String
deriving DecidableEq

/-- The heuristic-path alert text of lines 1000-1005. -/
def heuristic_alert_text (ts : String) : String :=
  "🚨 Costco Precious Metals IN STOCK!\n\n" ++
    "🕓 " ++ ts ++ "\n" ++
    "https://www.costco.com/precious-metals.html\n\n" ++
    "#Costco #Gold #Silver #CostcoPM"

/-- The heuristic-path out-of-stock text of lines 1015-1021. -/
def heuristic_oos_text (ts : String) : String :=
  statusHeadline ++ "\n\n" ++
    "🕓 " ++ ts ++ "\n" ++
    "No items currently in stock.\n" ++
    "https://www.costco.com/precious-metals.html\n\n" ++
    "#Costco #Gold #Silver #CostcoPM"

/-- The inconclusive status text of lines 1031-1037. -/
def inconclusive_text (ts : String) : String :=
  "Costco Precious Metals — status update (signal inconclusive)\n\n" ++
    "🕓 " ++ ts ++ "\n" ++
    "Unable to verify stock status from page payload. Monitoring continues.\n" ++
    "https://www.costco.com/precious-metals.html\n\n" ++
    "#Costco #Gold #Silver #CostcoPM"

/-- The decide-and-post core of `check_stock` after the page has loaded and
the artifacts are written (lines 926-1038): the blocked-marker check returns
Inconclusive before the tile count and text-pattern heuristics are
evaluated; otherwise the API summary, then the DOM summary, then the
tile/phrase heuristics decide. -/
def check_stock_decide (flags : PostFlags) (ts : String) (sig : PageSignals) : RunOutcome :=
  let low := lowOf sig.title sig.body
  if BLOCK_MARKERS.any (fun m => strContains low m) then
    ⟨.inconclusive, false, none⟩
  else
    let is_oos := OOS_PATTERNS.any (fun m => strContains low m)
    let has_terms := IN_STOCK_TERMS.any (fun m => strContains low m)
    match sig.summary with
    | some s =>
        let text := build_text_from_summary ts s
        if s.stock_gold.in_stock > 0 || s.stock_silver.in_stock > 0 then
          ⟨.inStock, true, some text⟩
        else
          ⟨.outOfStock, true, if flags.post_status_updates then some text else none⟩
    | none =>
        match sig.domSummary with
        | some ds =>
            let text := build_text_from_summary ts ds
            if ds.stock_gold.in_stock > 0 || ds.stock_silver.in_stock > 0 then
              ⟨.inStock, true, some text⟩
            else
              ⟨.outOfStock, true, if flags.post_status_updates then some text else none⟩
        | none =>
            if sig.tileCount > 0 || has_terms then
              ⟨.inStock, true, some (heuristic_alert_text ts)⟩
            else if is_oos then
              ⟨.outOfStock, true,
                if flags.post_status_updates then some (heuristic_oos_text ts) else none⟩
            else
              ⟨.inconclusive, true,
                if flags.post_status_updates && flags.always_post_when_inconclusive
                then some (inconclusive_text ts) else none⟩

/-! ## X (secondary destination) publish gate (lines 580-702) -/

/-- The apostrophe character, used by Python `repr` of strings. -/
def pyQuote : String := String.singleton (Char.ofNat 39)

mutual
/-- Python `repr(v)` of a JSON value (string escaping inside quoted strings
is not reproduced; no theorem below depends on composite renderings). -/
def pyRepr : JValue → String
  | .null => "None"
  | .bool true => "True"
  | .bool false => "False"
  | .num n => toString n
  | .str s => pyQuote ++ s ++ pyQuote
  | .arr xs => "[" ++ pyReprList xs ++ "]"
  | .obj kvs => "\x7b" ++ pyReprObj kvs ++ "\x7d"

/-- Comma-joined reprs of the elements of a list. -/
def pyReprList : List JValue → String
  | [] => ""
  | [v] => pyRepr v
  | v :: vs => pyRepr v ++ ", " ++ pyReprList vs

/-- Comma-joined reprs of the entries of a dict. -/
def pyReprObj : List (String × JValue) → String
  | [] => ""
  | [(k, v)] => pyQuote ++ k ++ pyQuote ++ ": " ++ pyRepr v
  | (k, v) :: kvs => pyQuote ++ k ++ pyQuote ++ ": " ++ pyRepr v ++ ", " ++ pyReprObj kvs
end

/-- Python `str(v)` of a JSON value. -/
def pyStr : JValue → String
  | .null => "None"
  | .bool true => "True"
  | .bool false => "False"
  | .num n => toString n
  | .str s => s
  | .arr xs => pyRepr (.arr xs)
  | .obj kvs => pyRepr (.obj kvs)

/-- Python `set.add` on a duplicate-free list (insertion order kept). -/
def setInsertStr (l : List String) (x : String) : List String :=
  if l.contains x then l else l ++ [x]

/-- Python set equality of two lists viewed as sets. -/
def setEqv (a b : List String) : Bool :=
  a.all (fun x => b.contains x) && b.all (fun x => a.contains x)

/-- The per-doc in-stock test inside `_instock_set_from_summary` (line 600):
`bool(d.get("isItemInStock")) or status in {"in stock","instock","available"}`
where `status` is the lowered status chain (no `.strip()` here, and the
boolean field takes no precedence).  A truthy non-string status raises,
which the surrounding `try` turns into the counts-signature fallback. -/
def doc_change_in_stock (d : JValue) : Except Unit Bool :=
  match d with
  | .obj kvs =>
      match statusChain kvs with
      | .str s =>
          let st := pyLower s
          .ok ((pyGetJ kvs "isItemInStock").toBool ||
               (st = "in stock" || st = "instock" || st = "available"))
      | _ => .error ()
  | _ => .error ()

/-- The identifier of an in-stock doc (line 602):
`str(d.get("item_number") or d.get("id") or d.get("name") or "")`.
Only reached after `doc_change_in_stock` succeeded, hence on a dict. -/
def doc_identifier (d : JValue) : String :=
  match d with
  | .obj kvs =>
      pyStr (pyOrJ (pyGetJ kvs "item_number")
        (pyOrJ (pyGetJ kvs "id") (pyOrJ (pyGetJ kvs "name") (.str ""))))
  | _ => ""

/-- The `for d in docs` id-collection loop of `_instock_set_from_summary`. -/
def instockIdsFromDocs (acc : List String) : List JValue → Except Unit (List String)
  | [] => .ok acc
  | d :: ds => do
      let isIn ← doc_change_in_stock d
      let acc2 := if isIn then setInsertStr acc (doc_identifier d) else acc
      instockIdsFromDocs acc2 ds

/-- The `try` body of `_instock_set_from_summary` from the decoded API JSON
file: `docs = data.get("response", {}).get("docs", [])` and the id loop. -/
def instockIdsFromData (data : JValue) : Except Unit (List String) := do
  let resp ← pyGetD data "response" (.obj [])
  let docsV ← pyGetD resp "docs" (.arr [])
  let ds ← pyIter docsV
  instockIdsFromDocs [] ds

/-- The counts-signature fallback of lines 608-612:
`{f"counts:{(gold, silver, gold_in, silver_in)}"}`. -/
def counts_key (s : Summary) : List String :=
  ["counts:(" ++ toString s.gold ++ ", " ++ toString s.silver ++ ", " ++
     toString s.stock_gold.in_stock ++ ", " ++ toString s.stock_silver.in_stock ++ ")"]

/-- `_instock_set_from_summary(summary)`: prefer the ids mined from the
captured API JSON file (`apiData = none` models a missing or undecodable
file); any exception in the `try` body, or an empty id set, falls back to
the counts signature. -/
def instock_set_from_summary (apiData : Option JValue) (s : Summary) : List String :=
  match apiData with
  | some data =>
      match instockIdsFromData data with
      | .ok ids => if ids.isEmpty then counts_key s else ids
      | .error _ => counts_key s
  | none => counts_key s

/-- The persisted gate state `.x_post_state.json`
(`month_counts`, `last_x_post_ts`, `last_instock_ids`). -/
structure GateState where
  monthCounts : List (String × Nat)
  lastXPostTs : Nat
  lastInstockIds : List String
deriving DecidableEq

/-- The empty state returned by `_load_state` for a missing or unreadable
state file. -/
def emptyState : GateState := ⟨[], 0, []⟩

/-- `counts.get(month_key, 0)` on the month-counts dict. -/
def lookupCount : List (String × Nat) → String → Nat
  | [], _ => 0
  | (k, v) :: rest, key => if k = key then v else lookupCount rest key

/-- `counts[month_key] = v` on the month-counts dict. -/
def setAssoc : List (String × Nat) → String → Nat → List (String × Nat)
  | [], key, v => [(key, v)]
  | (k, w) :: rest, key, v =>
      if k = key then (key, v) :: rest else (k, w) :: setAssoc rest key v

/-- The X gating configuration: `POST_TO_X`, `MAX_X_POSTS_PER_MONTH`,
`MIN_SECONDS_BETWEEN_X_POSTS`. -/
structure XConfig where
  postToX : Bool
  maxPerMonth : Int
  minSeconds : Int
deriving DecidableEq

/-- `_can_post_to_x_now(summary)` (lines 614-639).  `now` is the current
unix time and `monthKey` its `"%Y-%m"` rendering; `apiData` is the decoded
captured API JSON file (if any).  Checks run in order: the `POST_TO_X`
toggle, the monthly cap, the cooldown (skipped when no post was ever
recorded, since `last_ts` is then `0` and falsy), and the in-stock-set
change detection. -/
def can_post_to_x_now (cfg : XConfig) (st : GateState) (now : Nat) (monthKey : String)
    (apiData : Option JValue) (summary : Summary) : Bool × String :=
  if !cfg.postToX then (false, "POST_TO_X disabled")
  else if cfg.maxPerMonth ≤ (lookupCount st.monthCounts monthKey : Int) then
    (false, "month cap reached " ++ toString (lookupCount st.monthCounts monthKey) ++ "/" ++
      toString cfg.maxPerMonth)
  else if st.lastXPostTs ≠ 0 ∧ ((now : Int) - (st.lastXPostTs : Int)) < cfg.minSeconds then
    (false, "cooldown " ++ toString ((now : Int) - (st.lastXPostTs : Int)) ++ "s < " ++
      toString cfg.minSeconds ++ "s")
  else if setEqv (instock_set_from_summary apiData summary) st.lastInstockIds then
    (false, "no change in in-stock set")
  else (true, "ok")

/-- `_record_x_post(summary)` (lines 641-650): increment the current month's
counter, set the last-post timestamp, replace the recorded in-stock id set,
and persist. -/
def record_x_post (st : GateState) (now : Nat) (monthKey : String)
    (apiData : Option JValue) (summary : Summary) : GateState :=
  let counts := st.monthCounts
  ⟨setAssoc counts monthKey (lookupCount counts monthKey + 1),
   now,
   instock_set_from_summary apiData summary⟩

/-- The outcome of `post_to_x` (lines 652-689): nothing is sent when any of
the four OAuth credentials is missing, and a send attempt can fail; either
way the function swallows the condition and returns normally. -/
def post_to_x_attempt (credsPresent networkOk : Bool) : Bool :=
  if !credsPresent then false else networkOk

/-- `post_everywhere` (lines 691-702) restricted to its effect on the
persisted gate state.  The Bluesky publish (always attempted first) never
touches the state; the X branch runs only when `summary_for_x` is given and
the gate allows, and then `_record_x_post` runs unconditionally after the
`post_to_x` call, whose success value is never consulted. -/
def post_everywhere (cfg : XConfig) (credsPresent networkOk : Bool)
    (st : GateState) (now : Nat) (monthKey : String) (apiData : Option JValue)
    (summaryForX : Option Summary) : GateState :=
  match summaryForX with
  | none => st
  | some s =>
      let ok := (can_post_to_x_now cfg st now monthKey apiData s).1
      if !ok then st
      else
        let sent := post_to_x_attempt credsPresent networkOk
        record_x_post st now monthKey apiData s

/-! ## Derived predicates and claim-side statements -/

/-- `counts_by_category` value sum of a summary. -/
def sumCounts (s : Summary) : Nat := s.gold + s.silver + s.other

/-- Total in-stock tally over all categories. -/
def total_in (s : Summary) : Nat :=
  s.stock_gold.in_stock + s.stock_silver.in_stock + s.stock_other.in_stock

/-- Total out-of-stock tally over all categories. -/
def total_out (s : Summary) : Nat :=
  s.stock_gold.out_of_stock + s.stock_silver.out_of_stock + s.stock_other.out_of_stock

/-- Modelled from the spec: the derived predicate
`has_availability = exists category where stock_by_category[category].in_stock > 0`
(spec section 3).  Stated from the spec wording, to be compared with the
decision the code actually takes. -/
def has_availability (s : Summary) : Bool :=
  s.stock_gold.in_stock > 0 || s.stock_silver.in_stock > 0 || s.stock_other.in_stock > 0

/-- Modelled from the spec: the tile in-stock classification as the claim
words it — a price symbol, an "add to cart" phrase, or an explicit
"in stock" phrase (no further disjunct).  To be compared with
`tile_in_stock`. -/
def claimed_tile_in_stock (tlow : String) : Bool :=
  strContains tlow "$" || strContains tlow "add to cart" || strContains tlow "in stock"

/-- Is the value a JSON string? -/
def isStrB : JValue → Bool
  | .str _ => true
  | _ => false

/-- A field value that `" ".join(v or [])` consumes without raising:
either falsy (replaced by `[]`), a string, a list of strings, or a dict
(whose JSON keys are strings). -/
def joinableVal : JValue → Bool
  | .null => true
  | .bool b => !b
  | .num n => n == 0
  | .str _ => true
  | .arr xs => xs.all isStrB
  | .obj _ => true

/-- A doc whose field values the normalizer consumes without raising:
the two attribute lists are joinable, the name chain resolves to a string,
and either the explicit boolean key is present or the status chain resolves
to a string. -/
def wellTypedDoc : JValue → Bool
  | .obj kvs =>
      joinableVal (pyGetJ kvs "Precious_Metal_Form_attr") &&
      joinableVal (pyGetJ kvs "Purity_attr") &&
      isStrB (pyOrJ (pyGetJ kvs "item_product_name")
        (pyOrJ (pyGetJ kvs "name") (.str ""))) &&
      ((dictGet kvs "isItemInStock").isSome || isStrB (statusChain kvs))
  | _ => false

/-! ## Concrete inputs used by witnesses and counterexamples -/

/-- A gold doc explicitly in stock. -/
def docGoldIn : JValue :=
  .obj [("Precious_Metal_Form_attr", .arr [.str "gold bar"]),
        ("isItemInStock", .bool true), ("item_number", .str "1")]

/-- A silver doc explicitly out of stock. -/
def docSilverOut : JValue :=
  .obj [("Precious_Metal_Form_attr", .arr [.str "silver bar"]),
        ("isItemInStock", .bool false), ("item_number", .str "2")]

/-- A doc with a non-joinable attribute value: `" ".join(5)` raises. -/
def badDoc : JValue := .obj [("Precious_Metal_Form_attr", .num 5)]

/-- A doc whose explicit boolean says out of stock while the status string
says in stock. -/
def docBoolVsStatus : JValue :=
  .obj [("isItemInStock", .bool false),
        ("item_location_stockStatus", .str "in stock"),
        ("item_number", .str "123")]

/-- The two-doc payload of the summary witnesses. -/
def dataTwoDocs : JValue := mkPayload [docGoldIn, docSilverOut]

/-- A captured API payload with one item in stock (per the change-detection
notion of in stock). -/
def apiOneInStock : JValue :=
  mkPayload [.obj [("item_number", .str "1"),
                   ("item_location_stockStatus", .str "in stock")]]

/-- A summary whose only in-stock item is in category "other". -/
def sOtherOnly : Summary := ⟨1, 0, 0, 1, ⟨0, 0⟩, ⟨0, 0⟩, ⟨1, 0⟩⟩

/-- A summary with one gold item in stock. -/
def sGoldIn : Summary := ⟨1, 1, 0, 0, ⟨1, 0⟩, ⟨0, 0⟩, ⟨0, 0⟩⟩

/-- Page signals: parsed summary with only "other" in stock, clean page. -/
def sigOtherOnly : PageSignals := ⟨"", "", some sOtherOnly, none, 0⟩

/-- Page signals: parsed summary with gold in stock, clean page. -/
def sigGoldIn : PageSignals := ⟨"", "", some sGoldIn, none, 0⟩

/-- Page signals: body carries the blocked marker inside the first 2000
characters. -/
def sigBlocked : PageSignals := ⟨"", "request was blocked", none, none, 0⟩

/-- A body whose blocked marker sits beyond the 2000-character preview the
code examines. -/
def bodyLateMarker : String := String.mk (List.replicate 2000 'a') ++ "access denied"

/-- Page signals: late blocked marker, one rendered tile, nothing else. -/
def sigLateMarker : PageSignals := ⟨"", bodyLateMarker, none, none, 1⟩

/-- The default posting flags (both toggles off). -/
def flagsOff : PostFlags := ⟨false, false⟩

/-- The default X gate configuration with posting enabled
(cap 450, cooldown 1800 s). -/
def cfgOn : XConfig := ⟨true, 450, 1800⟩

/-- The X gate configuration with `POST_TO_X` disabled. -/
def cfgOff : XConfig := ⟨false, 450, 1800⟩

/-- Gate state at the monthly cap for 2024-05 (spec scenario D). -/
def stAtCap : GateState := ⟨[("2024-05", 450)], 0, []⟩

/-- Gate state whose recorded id set equals the counts signature of the
empty summary. -/
def stSameIds : GateState := ⟨[], 0, ["counts:(0, 0, 0, 0)"]⟩

/-! ## Helper lemmas -/

theorem total_in_bumpDoc (s : Summary) (m : String) (b : Bool) :
    total_in (bumpDoc s m b) = total_in s + (if b then 1 else 0) := by
  obtain ⟨nf, g, si, o, ⟨gi, go⟩, ⟨sii, sio⟩, ⟨oi, oo⟩⟩ := s
  simp only [bumpDoc, bumpPair, total_in]
  split_ifs <;> simp <;> omega

theorem total_out_bumpDoc (s : Summary) (m : String) (b : Bool) :
    total_out (bumpDoc s m b) = total_out s + (if b then 0 else 1) := by
  obtain ⟨nf, g, si, o, ⟨gi, go⟩, ⟨sii, sio⟩, ⟨oi, oo⟩⟩ := s
  simp only [bumpDoc, bumpPair, total_out]
  split_ifs <;> simp <;> omega

theorem sumCounts_bumpDoc (s : Summary) (m : String) (b : Bool) :
    sumCounts (bumpDoc s m b) = sumCounts s + 1 := by
  obtain ⟨nf, g, si, o, ⟨gi, go⟩, ⟨sii, sio⟩, ⟨oi, oo⟩⟩ := s
  simp only [bumpDoc, bumpPair, sumCounts]
  split_ifs <;> simp <;> omega

/-- The summary-present arm of the decision core, given a clean page. -/
theorem check_stock_decide_summary (flags : PostFlags) (ts : String) (sig : PageSignals)
    (s : Summary) (hsum : sig.summary = some s)
    (hblock : BLOCK_MARKERS.any (fun m => strContains (lowOf sig.title sig.body) m) = false) :
    check_stock_decide flags ts sig =
      if s.stock_gold.in_stock > 0 || s.stock_silver.in_stock > 0 then
        ⟨.inStock, true, some (build_text_from_summary ts s)⟩
      else
        ⟨.outOfStock, true,
          if flags.post_status_updates then some (build_text_from_summary ts s) else none⟩ := by
  simp only [check_stock_decide, hblock, hsum, Bool.false_eq_true, if_false]

theorem hasInfixCh_append_right (needle ys xs : List Char)
    (h : hasInfixCh needle ys = true) : hasInfixCh needle (xs ++ ys) = true := by
  induction xs with
  | nil => simpa using h
  | cons x xs ih =>
      simp only [List.cons_append, hasInfixCh, Bool.or_eq_true]
      exact Or.inr ih

theorem isPrefixCh_replicate_all (needle : List Char) (c : Char) :
    ∀ n, isPrefixCh needle (List.replicate n c) = true → ∀ x ∈ needle, x = c := by
  induction needle with
  | nil =>
      intro n h x hx
      cases hx
  | cons a as ih =>
      intro n h x hx
      cases n with
      | zero => simp [isPrefixCh, List.replicate] at h
      | succ n =>
          simp only [List.replicate_succ, isPrefixCh, Bool.and_eq_true,
            decide_eq_true_eq] at h
          rcases List.mem_cons.mp hx with rfl | hx2
          · exact h.1
          · exact ih n h.2 x hx2

theorem hasInfixCh_replicate_false (needle : List Char) (c x : Char)
    (hx : x ∈ needle) (hxc : x ≠ c) :
    ∀ n, hasInfixCh needle (List.replicate n c) = false := by
  intro n
  induction n with
  | zero =>
      cases needle with
      | nil => cases hx
      | cons a as => simp [hasInfixCh, isPrefixCh, List.replicate]
  | succ n ih =>
      cases hp : isPrefixCh needle (List.replicate (n + 1) c) with
      | true =>
          exact absurd (isPrefixCh_replicate_all needle c (n + 1) hp x hx) hxc
      | false =>
          simp only [List.replicate_succ, hasInfixCh, Bool.or_eq_false_iff]
          refine ⟨?_, ih⟩
          simpa [List.replicate_succ] using hp

theorem isPrefixCh_cons_ne (y : Char) (ys : List Char) (b : Char) (bs : List Char)
    (h : y ≠ b) : isPrefixCh (y :: ys) (b :: bs) = false := by
  simp [isPrefixCh, h]

/-- A needle whose head is not a space and which contains a character other
than the filler never occurs in a space followed by a filler run. -/
theorem marker_not_in_filler (y : Char) (ys : List Char) (n : Nat)
    (hy : y ≠ ' ') (x : Char) (hx : x ∈ y :: ys) (hxa : x ≠ 'a') :
    hasInfixCh (y :: ys) (' ' :: List.replicate n 'a') = false := by
  simp only [hasInfixCh, Bool.or_eq_false_iff]
  exact ⟨isPrefixCh_cons_ne y ys ' ' _ hy,
    hasInfixCh_replicate_false (y :: ys) 'a' x hx hxa n⟩

theorem lowOf_sigLateMarker :
    lowOf sigLateMarker.title sigLateMarker.body
      = String.mk (' ' :: List.replicate 2000 'a') := by
  have hpt : pyTake sigLateMarker.body 2000
      = String.mk ((List.replicate 2000 'a' ++ "access denied".toList).take 2000) := rfl
  have htake : (List.replicate 2000 'a' ++ "access denied".toList).take 2000
      = List.replicate 2000 'a' := by
    have h := List.take_left (List.replicate 2000 'a') ("access denied".toList)
    rwa [List.length_replicate] at h
  have hlower : pyLower (String.mk (List.replicate 2000 'a'))
      = String.mk (List.replicate 2000 'a') := by
    show String.mk ((List.replicate 2000 'a').map pyCharLower) = _
    rw [List.map_replicate, show pyCharLower 'a' = 'a' from rfl]
  show pyLower sigLateMarker.title ++ " " ++ pyLower (pyTake sigLateMarker.body 2000) = _
  rw [hpt, htake, hlower]
  rfl

theorem sigLateMarker_not_blocked :
    BLOCK_MARKERS.any
      (fun m => strContains (lowOf sigLateMarker.title sigLateMarker.body) m) = false := by
  have m1 : strContains (String.mk (' ' :: List.replicate 2000 'a')) "access denied"
      = false :=
    marker_not_in_filler 'a' ("ccess denied".toList) 2000 (by decide) 'c' (by decide)
      (by decide)
  have m2 : strContains (String.mk (' ' :: List.replicate 2000 'a')) "request was blocked"
      = false :=
    marker_not_in_filler 'r' ("equest was blocked".toList) 2000 (by decide) 'r' (by decide)
      (by decide)
  have m3 : strContains (String.mk (' ' :: List.replicate 2000 'a')) "reference #"
      = false :=
    marker_not_in_filler 'r' ("eference #".toList) 2000 (by decide) 'r' (by decide)
      (by decide)
  have m4 : strContains (String.mk (' ' :: List.replicate 2000 'a')) "problem loading page"
      = false :=
    marker_not_in_filler 'p' ("roblem loading page".toList) 2000 (by decide) 'p' (by decide)
      (by decide)
  simp only [lowOf_sigLateMarker, BLOCK_MARKERS, List.any_cons, List.any_nil,
    m1, m2, m3, m4, Bool.or_self, Bool.or_false]

theorem scrape_tally_totals (texts : List String) : ∀ acc seen,
    total_in (scrape_tally acc seen texts).1
      = total_in acc
        + (texts.filter
            (fun t => (pyTrim t != "") && tile_in_stock (pyLower (pyTrim t)))).length
    ∧ total_out (scrape_tally acc seen texts).1
      = total_out acc
        + (texts.filter
            (fun t => (pyTrim t != "") && !tile_in_stock (pyLower (pyTrim t)))).length := by
  induction texts with
  | nil =>
      intro acc seen
      simp [scrape_tally]
  | cons raw rest ih =>
      intro acc seen
      by_cases h : pyTrim raw = ""
      · have hb : (pyTrim raw != "") = false := by simp [h]
        simp only [scrape_tally]
        rw [if_pos h]
        simp only [List.filter_cons, hb, Bool.false_and, Bool.false_eq_true, if_false]
        exact ih acc seen
      · have hb : (pyTrim raw != "") = true := bne_iff_ne.mpr h
        simp only [scrape_tally]
        rw [if_neg h]
        obtain ⟨ih1, ih2⟩ := ih (bumpDoc acc (detect_metal_from_text (pyTrim raw))
          (tile_in_stock (pyLower (pyTrim raw)))) (seen + 1)
        cases hin : tile_in_stock (pyLower (pyTrim raw)) with
        | true =>
            rw [hin] at ih1 ih2
            constructor
            · rw [ih1, total_in_bumpDoc]
              simp [List.filter_cons, hb, hin]
              omega
            · rw [ih2, total_out_bumpDoc]
              simp [List.filter_cons, hb, hin]
        | false =>
            rw [hin] at ih1 ih2
            constructor
            · rw [ih1, total_in_bumpDoc]
              simp [List.filter_cons, hb, hin]
            · rw [ih2, total_out_bumpDoc]
              simp [List.filter_cons, hb, hin]
              omega

theorem except_bind_ok {α β : Type} {x : Except Unit α} {f : α → Except Unit β} {b : β}
    (h : Bind.bind x f = Except.ok b) : ∃ a, x = Except.ok a ∧ f a = Except.ok b := by
  cases x with
  | error e =>
      have h2 : (Except.error e : Except Unit β) = Except.ok b := h
      exact Except.noConfusion h2
  | ok a =>
      have h2 : f a = Except.ok b := h
      exact ⟨a, rfl, h2⟩

theorem tallyDocs_sum : ∀ (ds : List JValue) (acc t : Summary),
    tallyDocs acc ds = .ok t → sumCounts t = sumCounts acc + ds.length := by
  intro ds
  induction ds with
  | nil =>
      intro acc t h
      have h2 : Except.ok acc = Except.ok t := h
      injection h2 with hx
      subst hx
      simp
  | cons d rest ih =>
      intro acc t h
      have h2 : Bind.bind (detect_metal d) (fun m => Bind.bind (is_in_stock d)
          (fun inS => tallyDocs (bumpDoc acc m inS) rest)) = Except.ok t := h
      obtain ⟨m, hm, h3⟩ := except_bind_ok h2
      obtain ⟨b, hb, h4⟩ := except_bind_ok h3
      have hrest := ih (bumpDoc acc m b) t h4
      rw [hrest, sumCounts_bumpDoc]
      simp [List.length_cons]
      omega

theorem isStrB_exists {v : JValue} (h : isStrB v = true) : ∃ s, v = .str s := by
  cases v with
  | str s => exact ⟨s, rfl⟩
  | null => simp [isStrB] at h
  | bool b => simp [isStrB] at h
  | num n => simp [isStrB] at h
  | arr xs => simp [isStrB] at h
  | obj kvs => simp [isStrB] at h

theorem allStrings_ok : ∀ xs : List JValue, xs.all isStrB = true →
    ∃ ss, allStrings xs = .ok ss := by
  intro xs
  induction xs with
  | nil =>
      intro h
      exact ⟨[], rfl⟩
  | cons v vs ih =>
      intro h
      simp only [List.all_cons, Bool.and_eq_true] at h
      obtain ⟨s, rfl⟩ := isStrB_exists h.1
      obtain ⟨ss, hss⟩ := ih h.2
      refine ⟨s :: ss, ?_⟩
      simp only [allStrings]
      rw [hss]
      rfl

theorem joinable_ok (v : JValue) (h : joinableVal v = true) :
    ∃ t, pyJoinSpace (pyOrJ v (.arr [])) = .ok t := by
  cases v with
  | null => exact ⟨"", rfl⟩
  | bool b =>
      cases b with
      | false => exact ⟨"", rfl⟩
      | true => simp [joinableVal] at h
  | num n =>
      have hn : n = 0 := by simpa [joinableVal] using h
      subst hn
      exact ⟨"", rfl⟩
  | str s =>
      by_cases hs : s = ""
      · subst hs
        exact ⟨"", rfl⟩
      · have hv : pyOrJ (.str s) (.arr []) = .str s := by
          simp [pyOrJ, JValue.toBool, hs]
        rw [hv]
        exact ⟨_, rfl⟩
  | arr xs =>
      cases xs with
      | nil => exact ⟨"", rfl⟩
      | cons y ys =>
          have hv : pyOrJ (.arr (y :: ys)) (.arr []) = .arr (y :: ys) := rfl
          rw [hv]
          have hall : (y :: ys).all isStrB = true := by simpa [joinableVal] using h
          obtain ⟨ss, hss⟩ := allStrings_ok (y :: ys) hall
          refine ⟨joinWith " " ss, ?_⟩
          simp only [pyJoinSpace]
          rw [hss]
          rfl
  | obj kvs =>
      cases kvs with
      | nil => exact ⟨"", rfl⟩
      | cons kv rest => exact ⟨_, rfl⟩

theorem detect_metal_ok (d : JValue) (h : wellTypedDoc d = true) :
    ∃ m, detect_metal d = .ok m := by
  cases d with
  | obj kvs =>
      simp only [wellTypedDoc, Bool.and_eq_true] at h
      obtain ⟨⟨⟨hforms, hpurity⟩, hname⟩, _⟩ := h
      obtain ⟨f, hf⟩ := joinable_ok _ hforms
      obtain ⟨p, hp⟩ := joinable_ok _ hpurity
      obtain ⟨nm, hnm⟩ := isStrB_exists hname
      have hEq : detect_metal (.obj kvs)
          = (if strContains (pyLower f ++ " " ++ pyLower p ++ " " ++ pyLower nm) "gold"
                = true then Except.ok "gold"
             else if strContains (pyLower f ++ " " ++ pyLower p ++ " " ++ pyLower nm)
                "silver" = true then Except.ok "silver"
             else Except.ok "other") := by
        simp only [detect_metal]
        rw [hf, hp, hnm]
        rfl
      rw [hEq]
      split_ifs <;> exact ⟨_, rfl⟩
  | null => simp [wellTypedDoc] at h
  | bool b => simp [wellTypedDoc] at h
  | num n => simp [wellTypedDoc] at h
  | str s => simp [wellTypedDoc] at h
  | arr xs => simp [wellTypedDoc] at h

theorem is_in_stock_ok (d : JValue) (h : wellTypedDoc d = true) :
    ∃ b, is_in_stock d = .ok b := by
  cases d with
  | obj kvs =>
      simp only [wellTypedDoc, Bool.and_eq_true] at h
      obtain ⟨_, hlast⟩ := h
      cases hk : dictGet kvs "isItemInStock" with
      | some v =>
          refine ⟨v.toBool, ?_⟩
          simp only [is_in_stock]
          rw [hk]
      | none =>
          have hst : isStrB (statusChain kvs) = true := by
            rw [hk] at hlast
            simpa using hlast
          obtain ⟨s, hs⟩ := isStrB_exists hst
          refine ⟨(decide (pyLower (pyTrim s) = "in stock")
            || decide (pyLower (pyTrim s) = "instock")
            || decide (pyLower (pyTrim s) = "available")), ?_⟩
          simp only [is_in_stock]
          rw [hk, hs]
  | null => simp [wellTypedDoc] at h
  | bool b => simp [wellTypedDoc] at h
  | num n => simp [wellTypedDoc] at h
  | str s => simp [wellTypedDoc] at h
  | arr xs => simp [wellTypedDoc] at h

theorem tallyDocs_ok : ∀ ds : List JValue, (∀ d ∈ ds, wellTypedDoc d = true) →
    ∀ acc, ∃ t, tallyDocs acc ds = .ok t := by
  intro ds
  induction ds with
  | nil =>
      intro h acc
      exact ⟨acc, rfl⟩
  | cons d rest ih =>
      intro h acc
      obtain ⟨m, hm⟩ := detect_metal_ok d (h d (List.mem_cons_self d rest))
      obtain ⟨b, hb⟩ := is_in_stock_ok d (h d (List.mem_cons_self d rest))
      obtain ⟨t, ht⟩ := ih (fun x hx => h x (List.mem_cons_of_mem d hx)) (bumpDoc acc m b)
      refine ⟨t, ?_⟩
      simp only [tallyDocs]
      rw [hm, hb]
      exact ht

theorem lookupCount_setAssoc (cs : List (String × Nat)) (k : String) (v : Nat) :
    lookupCount (setAssoc cs k v) k = v := by
  induction cs with
  | nil => simp [setAssoc, lookupCount]
  | cons p rest ih =>
      obtain ⟨a, b⟩ := p
      by_cases h : a = k
      · simp [setAssoc, h, lookupCount]
      · simp [setAssoc, h, lookupCount, ih]

/-! ## Claim theorems -/

/-- C4: for every item document containing the explicit boolean field
`isItemInStock`, `_is_in_stock` returns exactly that boolean, regardless of
any status-string field also present in the document. -/
theorem c4_bool_precedence (kvs : List (String × JValue)) (b : Bool)
    (h : dictGet kvs "isItemInStock" = some (.bool b)) :
    is_in_stock (.obj kvs) = .ok b := by
  simp only [is_in_stock]
  rw [h]
  rfl

/-- Witness for C4 at a doc that carries both the boolean (false) and a
status string saying "in stock". -/
theorem c4_bool_precedence_witness :
    is_in_stock docBoolVsStatus = .ok false :=
  c4_bool_precedence
    [("isItemInStock", .bool false),
     ("item_location_stockStatus", .str "in stock"),
     ("item_number", .str "123")] false rfl

/-- C10: the change-detection derivation gives the explicit boolean no
precedence — a doc with `isItemInStock = false` and status string
"in stock" is counted in stock by `_instock_set_from_summary`'s per-doc
test (and contributes its identifier to the set), while `_is_in_stock`
returns false on the same doc. -/
theorem c10_change_detection_no_precedence (kvs : List (String × JValue))
    (h1 : dictGet kvs "isItemInStock" = some (.bool false))
    (h2 : dictGet kvs "item_location_stockStatus" = some (.str "in stock")) :
    doc_change_in_stock (.obj kvs) = .ok true ∧
    is_in_stock (.obj kvs) = .ok false ∧
    instockIdsFromDocs [] [.obj kvs] = .ok [doc_identifier (.obj kvs)] := by
  have hchain : statusChain kvs = .str "in stock" := by
    unfold statusChain pyGetJ
    rw [h2]
    rfl
  have hget : pyGetJ kvs "isItemInStock" = .bool false := by
    unfold pyGetJ
    rw [h1]
    rfl
  have hd : doc_change_in_stock (.obj kvs) = .ok true := by
    simp only [doc_change_in_stock]
    rw [hchain, hget]
    rfl
  refine ⟨hd, ?_, ?_⟩
  · simp only [is_in_stock]
    rw [h1]
    rfl
  · simp only [instockIdsFromDocs]
    rw [hd]
    rfl

/-- Witness for C10 at the concrete conflicting doc. -/
theorem c10_change_detection_no_precedence_witness :
    doc_change_in_stock docBoolVsStatus = .ok true ∧
    is_in_stock docBoolVsStatus = .ok false ∧
    instockIdsFromDocs [] [docBoolVsStatus] = .ok [doc_identifier docBoolVsStatus] :=
  c10_change_detection_no_precedence
    [("isItemInStock", .bool false),
     ("item_location_stockStatus", .str "in stock"),
     ("item_number", .str "123")] rfl rfl

/-- C3: each recorded secondary publish increments the month's usage count
by exactly one, and once the month's usage is at or above the configured
cap, `_can_post_to_x_now` returns false regardless of the cooldown or the
change-detection result. -/
theorem c3_cap_and_increment (cfg : XConfig) (st : GateState) (now : Nat)
    (monthKey : String) (apiData : Option JValue) (summary : Summary) :
    lookupCount (record_x_post st now monthKey apiData summary).monthCounts monthKey
      = lookupCount st.monthCounts monthKey + 1
    ∧ (cfg.maxPerMonth ≤ (lookupCount st.monthCounts monthKey : Int) →
        (can_post_to_x_now cfg st now monthKey apiData summary).1 = false) := by
  constructor
  · exact lookupCount_setAssoc st.monthCounts monthKey _
  · intro hcap
    unfold can_post_to_x_now
    by_cases hp : (!cfg.postToX) = true
    · rw [if_pos hp]
    · rw [if_neg hp, if_pos hcap]

/-- Witness for C3: spec scenario D — month usage 450 with cap 450 refuses
the publish, and a recorded post moves the counter to 451. -/
theorem c3_cap_and_increment_witness :
    lookupCount (record_x_post stAtCap 1716000000 "2024-05" none emptyCounts).monthCounts
      "2024-05" = 451
    ∧ (can_post_to_x_now cfgOn stAtCap 1716000000 "2024-05" none emptyCounts).1 = false := by
  have h := c3_cap_and_increment cfgOn stAtCap 1716000000 "2024-05" none emptyCounts
  exact ⟨h.1, h.2 (by decide)⟩

/-- C7: whenever the in-stock identifier set derived from the current
summary equals (as a set) the identifier set recorded after the last
secondary publish, `_can_post_to_x_now` returns false — even when the
cooldown has elapsed and the monthly cap is not reached (no hypothesis on
either is needed). -/
theorem c7_change_detection_suppresses (cfg : XConfig) (st : GateState) (now : Nat)
    (monthKey : String) (apiData : Option JValue) (summary : Summary)
    (h : setEqv (instock_set_from_summary apiData summary) st.lastInstockIds = true) :
    (can_post_to_x_now cfg st now monthKey apiData summary).1 = false := by
  unfold can_post_to_x_now
  by_cases h1 : (!cfg.postToX) = true
  · rw [if_pos h1]
  · rw [if_neg h1]
    by_cases h2 : cfg.maxPerMonth ≤ (lookupCount st.monthCounts monthKey : Int)
    · rw [if_pos h2]
    · rw [if_neg h2]
      by_cases h3 : st.lastXPostTs ≠ 0 ∧ ((now : Int) - (st.lastXPostTs : Int)) < cfg.minSeconds
      · rw [if_pos h3]
      · rw [if_neg h3, if_pos h]

/-- Witness for C7: enabled gate, zero usage, no cooldown pending, but an
unchanged identifier set still suppresses the publish. -/
theorem c7_change_detection_witness :
    (can_post_to_x_now cfgOn stSameIds 1716000000 "2024-05" none emptyCounts).1 = false :=
  c7_change_detection_suppresses cfgOn stSameIds 1716000000 "2024-05" none emptyCounts rfl

/-- C2 counterexample: with the gate open but the X credentials missing
(`post_to_x` skips without sending), `post_everywhere` still mutates the
persisted gate state — refuting "if the secondary publish fails or is
skipped (e.g. missing credentials), the state is unchanged". -/
theorem c2_state_mutated_on_skipped_publish :
    post_to_x_attempt false false = false ∧
    post_everywhere cfgOn false false emptyState 1000 "2024-05"
      (some apiOneInStock) (some emptyCounts) ≠ emptyState := by
  exact ⟨rfl, by decide⟩

/-- C2 amended: the gate state is never read or written by the primary
(Bluesky) publish path, is unchanged when no summary is supplied or when
the gate refuses, and — when the gate allows — is updated independently of
whether the secondary publish succeeds or is skipped (its outcome is never
consulted). -/
theorem c2_state_frame (cfg : XConfig) (cr1 nw1 cr2 nw2 : Bool) (st : GateState)
    (now : Nat) (monthKey : String) (apiData : Option JValue) (sOpt : Option Summary) :
    post_everywhere cfg cr1 nw1 st now monthKey apiData sOpt
      = post_everywhere cfg cr2 nw2 st now monthKey apiData sOpt
    ∧ (sOpt = none → post_everywhere cfg cr1 nw1 st now monthKey apiData sOpt = st)
    ∧ ∀ s, sOpt = some s →
        (can_post_to_x_now cfg st now monthKey apiData s).1 = false →
        post_everywhere cfg cr1 nw1 st now monthKey apiData sOpt = st := by
  refine ⟨?_, ?_, ?_⟩
  · cases sOpt with
    | none => rfl
    | some s => rfl
  · intro h
    subst h
    rfl
  · intro s h hok
    subst h
    have hpe : post_everywhere cfg cr1 nw1 st now monthKey apiData (some s)
        = if !(can_post_to_x_now cfg st now monthKey apiData s).1 then st
          else record_x_post st now monthKey apiData s := rfl
    rw [hpe, hok]
    rfl

/-- Witness for C2 amended: a refused gate (X disabled) leaves the state
untouched, and the result never depends on the publish outcome. -/
theorem c2_state_frame_witness :
    post_everywhere cfgOff true true emptyState 0 "2024-05" none (some emptyCounts)
      = emptyState
    ∧ post_everywhere cfgOff true true emptyState 0 "2024-05" none (some emptyCounts)
      = post_everywhere cfgOff false false emptyState 0 "2024-05" none (some emptyCounts) := by
  have h := c2_state_frame cfgOff true true false false emptyState 0 "2024-05" none
    (some emptyCounts)
  exact ⟨h.2.2 emptyCounts rfl (by decide), h.1⟩

/-- C1 counterexample: a summary whose only in-stock items fall in category
"other" has `has_availability` true, yet the run does not transition to
InStock (it takes the out-of-stock branch) and the composed headline is the
status-update phrasing, not the alert phrasing — refuting the claim that
the decision follows `has_availability` over all categories. -/
theorem c1_other_only_counterexample :
    has_availability sOtherOnly = true
    ∧ (check_stock_decide flagsOff "12:00" sigOtherOnly).decision = .outOfStock
    ∧ (check_stock_decide flagsOff "12:00" sigOtherOnly).decision ≠ .inStock
    ∧ status_line_of sOtherOnly = statusHeadline
    ∧ statusHeadline ≠ alertHeadline := by
  refine ⟨rfl, rfl, ?_, rfl, ?_⟩ <;> decide

/-- C1 amended: with a parsed summary and no blocked-page marker, the run
transitions to InStock iff the gold or silver in-stock tally is positive
(the "other" category is not consulted), and in that case it publishes the
summary text whose headline is the alert phrasing. -/
theorem c1_instock_alert_iff_gold_or_silver (flags : PostFlags) (ts : String)
    (sig : PageSignals) (s : Summary) (hsum : sig.summary = some s)
    (hblock : BLOCK_MARKERS.any (fun m => strContains (lowOf sig.title sig.body) m) = false) :
    (((check_stock_decide flags ts sig).decision = .inStock) ↔
      (s.stock_gold.in_stock > 0 ∨ s.stock_silver.in_stock > 0))
    ∧ ((check_stock_decide flags ts sig).decision = .inStock →
        (check_stock_decide flags ts sig).primaryText = some (build_text_from_summary ts s)
        ∧ status_line_of s = alertHeadline) := by
  have hcs := check_stock_decide_summary flags ts sig s hsum hblock
  by_cases hgs : s.stock_gold.in_stock > 0 ∨ s.stock_silver.in_stock > 0
  · have hb : (decide (s.stock_gold.in_stock > 0) || decide (s.stock_silver.in_stock > 0))
        = true := by
      rcases hgs with h | h <;> simp [h]
    rw [if_pos hb] at hcs
    rw [hcs]
    refine ⟨⟨fun _ => hgs, fun _ => rfl⟩, fun _ => ⟨rfl, ?_⟩⟩
    unfold status_line_of
    rw [if_pos hb]
  · have hb : (decide (s.stock_gold.in_stock > 0) || decide (s.stock_silver.in_stock > 0))
        = false := by
      simp only [not_or] at hgs
      simp [hgs.1, hgs.2]
    rw [if_neg ?hc] at hcs
    case hc => rw [hb]; exact Bool.false_ne_true
    rw [hcs]
    refine ⟨⟨fun h => absurd h (by simp), fun h => absurd h hgs⟩, fun h => absurd h (by simp)⟩

/-- Witness for C1 amended at a summary with one gold item in stock. -/
theorem c1_instock_alert_witness :
    ((check_stock_decide flagsOff "12:00" sigGoldIn).decision = .inStock ↔
      (sGoldIn.stock_gold.in_stock > 0 ∨ sGoldIn.stock_silver.in_stock > 0))
    ∧ ((check_stock_decide flagsOff "12:00" sigGoldIn).decision = .inStock →
        (check_stock_decide flagsOff "12:00" sigGoldIn).primaryText
          = some (build_text_from_summary "12:00" sGoldIn)
        ∧ status_line_of sGoldIn = alertHeadline) :=
  c1_instock_alert_iff_gold_or_silver flagsOff "12:00" sigGoldIn sGoldIn rfl (by decide)

/-- C8 amended: whenever the page title or the first 2000 characters of the
body text contain a bot-block/consent-wall marker, the run terminates
Inconclusive and the tile-count / text-pattern heuristic checks are not
evaluated. -/
theorem c8_blocked_short_circuit (flags : PostFlags) (ts : String) (sig : PageSignals)
    (h : BLOCK_MARKERS.any (fun m => strContains (lowOf sig.title sig.body) m) = true) :
    (check_stock_decide flags ts sig).decision = .inconclusive
    ∧ (check_stock_decide flags ts sig).heuristicEvaluated = false := by
  have : check_stock_decide flags ts sig = ⟨.inconclusive, false, none⟩ := by
    simp only [check_stock_decide, h, if_true]
  rw [this]
  exact ⟨rfl, rfl⟩

/-- Witness for C8 amended: a body containing "request was blocked" inside
the preview window short-circuits to Inconclusive. -/
theorem c8_blocked_short_circuit_witness :
    (check_stock_decide flagsOff "12:00" sigBlocked).decision = .inconclusive
    ∧ (check_stock_decide flagsOff "12:00" sigBlocked).heuristicEvaluated = false :=
  c8_blocked_short_circuit flagsOff "12:00" sigBlocked (by decide)

/-- C8 counterexample: the code only examines the first 2000 characters of
the body text, so a body that contains "access denied" beyond that preview
does not short-circuit — with a rendered tile present the run decides
InStock and the heuristic checks are evaluated, refuting the claim for the
body text as a whole. -/
theorem c8_truncated_body_counterexample :
    strContains sigLateMarker.body "access denied" = true
    ∧ (check_stock_decide flagsOff "12:00" sigLateMarker).decision = .inStock
    ∧ (check_stock_decide flagsOff "12:00" sigLateMarker).heuristicEvaluated = true := by
  have hcs : check_stock_decide flagsOff "12:00" sigLateMarker
      = ⟨.inStock, true, some (heuristic_alert_text "12:00")⟩ := by
    simp only [check_stock_decide, sigLateMarker_not_blocked, Bool.false_eq_true, if_false]
    rfl
  refine ⟨?_, by rw [hcs], by rw [hcs]⟩
  show hasInfixCh ("access denied".toList)
      (List.replicate 2000 'a' ++ "access denied".toList) = true
  exact hasInfixCh_append_right _ _ _ (by decide)

/-- C9 counterexample: the tile text "gold price" contains no price symbol,
no add-to-cart phrase and no "in stock" phrase, yet the DOM scrape counts
it as in stock (the code also accepts the bare word "price") — refuting the
claimed three-way classification. -/
theorem c9_price_term_counterexample :
    claimed_tile_in_stock (pyLower (pyTrim "gold price")) = false
    ∧ scrape_dom_summary ["gold price"] = some ⟨1, 1, 0, 0, ⟨1, 0⟩, ⟨0, 0⟩, ⟨0, 0⟩⟩ := by
  refine ⟨?_, ?_⟩ <;> rfl

/-- C9 amended: in the DOM-scrape fallback, a tile with non-empty stripped
text is tallied in stock exactly when its lowered text contains a price
symbol ("$"), the word "price", an "add to cart" phrase, or an explicit
"in stock" phrase (`tile_in_stock`), and out of stock otherwise: over any
tile-text list the in/out tallies equal the counts of non-empty tiles
satisfying / refuting that predicate. -/
theorem c9_tile_classification (texts : List String) :
    total_in (scrape_tally emptyCounts 0 texts).1
      = (texts.filter
          (fun t => (pyTrim t != "") && tile_in_stock (pyLower (pyTrim t)))).length
    ∧ total_out (scrape_tally emptyCounts 0 texts).1
      = (texts.filter
          (fun t => (pyTrim t != "") && !tile_in_stock (pyLower (pyTrim t)))).length := by
  have h := scrape_tally_totals texts emptyCounts 0
  simpa [total_in, total_out, emptyCounts] using h

/-- C5: for every structured payload whose docs list has N entries, a
summary produced by `parse_api_json` has counts-by-category values summing
to N — each doc is classified into exactly one of gold, silver, other and
counted once. -/
theorem c5_counts_sum (data : JValue) (ds : List JValue) (s : Summary)
    (h1 : docsListOf data = .ok ds) (h2 : parse_api_json data = .ok s) :
    sumCounts s = ds.length := by
  have h1b : Bind.bind (pyGetD data "response" (.obj []))
      (fun resp => Bind.bind (pyGetD resp "docs" (.arr []))
        (fun docsV => pyIter docsV)) = Except.ok ds := h1
  obtain ⟨resp, hr, h1c⟩ := except_bind_ok h1b
  obtain ⟨docsV, hdv, h1d⟩ := except_bind_ok h1c
  unfold parse_api_json at h2
  obtain ⟨resp2, hr2, h2c⟩ := except_bind_ok h2
  rw [hr] at hr2
  injection hr2 with hx
  subst hx
  obtain ⟨docsV2, hdv2, h2d⟩ := except_bind_ok h2c
  rw [hdv] at hdv2
  injection hdv2 with hx
  subst hx
  obtain ⟨nfV, hnfv, h2e⟩ := except_bind_ok h2d
  have hk : ∃ nf : Int, Bind.bind (pyIter docsV)
      (fun ds2 => Bind.bind (tallyDocs emptyCounts ds2)
        (fun t => (Except.ok ⟨nf, t.gold, t.silver, t.other, t.stock_gold,
          t.stock_silver, t.stock_other⟩ : Except Unit Summary))) = Except.ok s := by
    cases hb : nfV.toBool with
    | true =>
        simp only [hb, eq_self_iff_true, if_true] at h2e
        obtain ⟨nf, hnf2, h3⟩ := except_bind_ok h2e
        exact ⟨nf, h3⟩
    | false =>
        simp only [hb, Bool.false_eq_true, if_false] at h2e
        obtain ⟨n, hn2, h3⟩ := except_bind_ok h2e
        obtain ⟨nf, hnf2, h4⟩ := except_bind_ok h3
        exact ⟨nf, h4⟩
  obtain ⟨nf, h2f⟩ := hk
  obtain ⟨ds2, hds2, h2g⟩ := except_bind_ok h2f
  rw [h1d] at hds2
  injection hds2 with hx
  subst hx
  obtain ⟨t, ht, h2h⟩ := except_bind_ok h2g
  injection h2h with hx
  subst hx
  have hsum := tallyDocs_sum ds emptyCounts t ht
  simp [sumCounts, emptyCounts] at hsum ⊢
  omega

/-- Witness for C5 at a two-doc payload (spec scenario A shape). -/
theorem c5_counts_sum_witness :
    ∃ s, parse_api_json dataTwoDocs = .ok s ∧ sumCounts s = 2 := by
  refine ⟨⟨2, 1, 1, 0, ⟨1, 0⟩, ⟨0, 1⟩, ⟨0, 0⟩⟩, rfl, ?_⟩
  exact c5_counts_sum dataTwoDocs [docGoldIn, docSilverOut] _ rfl rfl

/-- C6 counterexample: a docs list of dictionaries whose attribute value is
a number makes the normalizer raise (Python `" ".join(5)` is a TypeError),
refuting "never raises ... whatever the shape or types of their field
values". -/
theorem c6_normalizer_raises_counterexample :
    parse_api_json (mkPayload [badDoc]) = .error () := rfl

/-- C6 amended: for every docs list of dictionaries whose field values are
well typed (attribute fields joinable, name and status chains resolving to
strings or the explicit boolean present), normalization completes without
raising; classification of a doc with no usable text defaults to category
"other" and ambiguous stock status defaults to out-of-stock.  (A doc with
a truthy non-string, non-string-list field value raises instead; the caller
catches this and treats it as "no summary".) -/
theorem c6_welltyped_no_raise (ds : List JValue)
    (h : ∀ d ∈ ds, wellTypedDoc d = true) :
    (parse_api_json (mkPayload ds)).isOk = true
    ∧ detect_metal (.obj []) = .ok "other"
    ∧ is_in_stock (.obj []) = .ok false := by
  refine ⟨?_, rfl, rfl⟩
  obtain ⟨t, ht⟩ := tallyDocs_ok ds h emptyCounts
  have hpe : parse_api_json (mkPayload ds)
      = Bind.bind (tallyDocs emptyCounts ds)
          (fun t => Except.ok ⟨Int.ofNat ds.length, t.gold, t.silver, t.other,
            t.stock_gold, t.stock_silver, t.stock_other⟩) := rfl
  rw [hpe, ht]
  rfl

/-- Witness for C6 amended: an empty doc plus a typical gold doc normalize
successfully. -/
theorem c6_welltyped_no_raise_witness :
    (parse_api_json (mkPayload [.obj [], docGoldIn])).isOk = true
    ∧ detect_metal (.obj []) = .ok "other"
    ∧ is_in_stock (.obj []) = .ok false := by
  refine c6_welltyped_no_raise [.obj [], docGoldIn] ?_
  intro d hd
  rcases List.mem_cons.mp hd with rfl | hd2
  · rfl
  · rcases List.mem_cons.mp hd2 with rfl | hd3
    · rfl
    · cases hd3

end CostcoPM
